import Mathlib

/-!
# piriscope: layered configuration merge and process orchestration

A shallow embedding of `src/piriscope.go`.

* Go `string` is `String` (text is taken to be well-formed UTF-8), Go `int`
  is `Int` (the program performs no arithmetic on its integers, it only
  compares them with zero and prints them, so no wrap-around can occur), Go
  `bool` is `Bool`.
* A Go `error` result is `Option String`: `none` is `nil`, `some msg` is an
  error carrying that message.
* External processes are modelled by an oracle (`Runner`) that decides the
  outcome of every `Run`, `Start` and `Wait`, and by an explicit trace of the
  calls made (`Event`).  Logging (`showCommand`) and the pass-through of the
  children's output streams are not modelled.
* The iteration order of a Go map is unspecified; it is a parameter
  (`RangeOrder`) that may return any permutation of the entries.
-/

namespace Piriscope

/-! ## Data model (piriscope.go, lines 18-35) -/

structure periscope where
  Key : String
deriving DecidableEq, Repr

structure video where
  Width : Int
  Height : Int
  Sharpness : Int
  Quality : Int
  Bitrate : Int
  VFlip : Bool
  HFlip : Bool
deriving DecidableEq, Repr

structure configuration where
  Periscope : periscope
  Video : video
deriving DecidableEq, Repr

/-! ## Merge functions (lines 52-99) -/

def mergeString (l : String) (r : String) : String :=
  if r = "" then l else r

def mergeInt (l : Int) (r : Int) : Int :=
  if r = 0 then l else r

def mergeBool (l : Bool) (r : Bool) (dflt : Bool) : Bool :=
  if r = dflt then l else r

def mergePeriscope (l : periscope) (r : periscope) : periscope :=
  { Key := mergeString l.Key r.Key }

def mergeVideo (l : video) (r : video) : video :=
  { Width := mergeInt l.Width r.Width
    Height := mergeInt l.Height r.Height
    Sharpness := mergeInt l.Sharpness r.Sharpness
    Quality := mergeInt l.Quality r.Quality
    Bitrate := mergeInt l.Bitrate r.Bitrate
    VFlip := mergeBool l.VFlip r.VFlip false
    HFlip := mergeBool l.HFlip r.HFlip false }

def mergeConfig (l : configuration) (r : configuration) : configuration :=
  { Periscope := mergePeriscope l.Periscope r.Periscope
    Video := mergeVideo l.Video r.Video }

/-! ## Configuration layers built in `main` (lines 199-235) -/

/-- The zero value of `configuration`: what `var fileConfig configuration`
holds when no configuration file is given, and what JSON decoding leaves in
every field the file does not mention. -/
def zeroConfiguration : configuration :=
  { Periscope := { Key := "" }
    Video := { Width := 0, Height := 0, Sharpness := 0, Quality := 0, Bitrate := 0,
               VFlip := false, HFlip := false } }

/-- The `defaultConfig` literal of `main` (lines 214-227). -/
def defaultConfig : configuration :=
  { Periscope := { Key := "" }
    Video := { Width := 960, Height := 540, Sharpness := 30, Quality := 80,
               Bitrate := 800000, VFlip := false, HFlip := false } }

/-- The `cliConfig` literal of `main` (lines 229-233): only the key is given,
the `Video` field is left at its zero value. -/
def cliConfig (key : String) : configuration :=
  { Periscope := { Key := key }
    Video := zeroConfiguration.Video }

/-- The resolved configuration of `main` (line 235). -/
def resolvedConfig (fileConfig : configuration) (key : String) : configuration :=
  mergeConfig defaultConfig (mergeConfig fileConfig (cliConfig key))

/-! ## Strings, maps and commands used by `runStream` -/

/-- Go `strconv.Itoa`: base-10 text of an integer, with a leading minus sign
for negative values. -/
def Itoa (i : Int) : String :=
  match i with
  | Int.ofNat n => Nat.repr n
  | Int.negSucc n => "-" ++ Nat.repr (n + 1)

/-- Go `strings.Join`. -/
def Join : List String → String → String
  | [], _ => ""
  | [a], _ => a
  | a :: b :: rest, sep => a ++ sep ++ Join (b :: rest) sep

/-- A Go `map[string]string`, as the list of its entries (keys distinct). -/
abbrev StringMap := List (String × String)

/-- Go map assignment `m[k] = v`. -/
def mapSet : StringMap → String → String → StringMap
  | [], k, v => [(k, v)]
  | (k0, v0) :: rest, k, v =>
    if k0 = k then (k, v) :: rest else (k0, v0) :: mapSet rest k v

/-- The order in which `range` visits the entries of a map: any permutation
of the entries. -/
structure RangeOrder where
  iter : StringMap → StringMap
  perm : ∀ m, List.Perm (iter m) m

/-- Iteration in the order the entries were written. -/
def RangeOrder.written : RangeOrder :=
  { iter := fun m => m
    perm := fun m => List.Perm.refl m }

/-- Iteration in the reverse of the order the entries were written. -/
def RangeOrder.reversed : RangeOrder :=
  { iter := fun m => m.reverse
    perm := fun m => List.reverse_perm m }

/-- Embedding of `joinProps` (lines 37-43). -/
def joinProps (ord : RangeOrder) (props : StringMap) (kvSeparator : String)
    (fieldSeparator : String) : String :=
  let parts := (ord.iter props).foldl
    (fun (parts : List String) (kv : String × String) =>
      parts ++ [kv.1 ++ kvSeparator ++ kv.2]) []
  Join parts fieldSeparator

/-- Go `exec.Cmd`, reduced to the program name and the argument vector
(`Args[0]` is the program name, as in Go). -/
structure Cmd where
  Path : String
  Args : List String
deriving DecidableEq, Repr

/-- Go `exec.Command`. -/
def Command (name : String) (arg : List String) : Cmd :=
  { Path := name, Args := name :: arg }

/-- One call on an external process. -/
inductive Event where
  | run (c : Cmd)
  | start (c : Cmd)
  | wait (c : Cmd)
deriving DecidableEq, Repr

/-- The outside world: the error (or `none`) that each call on an external
process returns, given the calls made before it. -/
structure Runner where
  run : List Event → Cmd → Option String
  start : List Event → Cmd → Option String
  wait : List Event → Cmd → Option String

/-- What a run of `runStream` yields: the returned error and the calls made on
external processes, oldest first. -/
structure Outcome where
  err : Option String
  trace : List Event
deriving DecidableEq, Repr

/-- Go `cmd.Run()`: the call is recorded and its error returned. -/
def Cmd.Run (os : Runner) (t : List Event) (c : Cmd) : Option String × List Event :=
  (os.run t c, t ++ [Event.run c])

/-- Go `cmd.Start()`. -/
def Cmd.Start (os : Runner) (t : List Event) (c : Cmd) : Option String × List Event :=
  (os.start t c, t ++ [Event.start c])

/-- Go `cmd.Wait()`: on a command that was never started it fails at once,
otherwise it blocks until the process exits and reports how it ended. -/
def Cmd.Wait (os : Runner) (t : List Event) (c : Cmd) (started : Bool) :
    Option String × List Event :=
  (if started then os.wait t c else some "exec: not started", t ++ [Event.wait c])

/-! ## `runStream` (lines 101-184) -/

/-- The `streamUrl` of `runStream` (line 106). -/
def streamUrl (config : configuration) : String :=
  "rtmp://va.pscp.tv:80/x/" ++ config.Periscope.Key

/-- The `videoProps` map of `runStream` (lines 114-118). -/
def videoProps (config : configuration) : StringMap :=
  let width := Itoa config.Video.Width
  let height := Itoa config.Video.Height
  [("width", width), ("height", height), ("pixelformat", "4")]

/-- The `controlProps` map of `runStream` (lines 129-144), after the two
conditional assignments. -/
def controlProps (config : configuration) : StringMap :=
  let sharpness := Itoa config.Video.Sharpness
  let quality := Itoa config.Video.Quality
  let bitrate := Itoa config.Video.Bitrate
  let controlProps : StringMap :=
    [("sharpness", sharpness), ("compression_quality", quality),
     ("video_bitrate_mode", "1"), ("video_bitrate", bitrate),
     ("vertical_flip", "0"), ("horizontal_flip", "0")]
  let controlProps :=
    if config.Video.VFlip then mapSet controlProps "vertical_flip" "1" else controlProps
  let controlProps :=
    if config.Video.HFlip then mapSet controlProps "horizontal_flip" "1" else controlProps
  controlProps

/-- The `ffmpegArgs` slice of `runStream` (lines 155-168). -/
def ffmpegArgs (streamUrl : String) : List String :=
  ["-re",
   "-f", "lavfi", "-i", "anullsrc",
   "-f", "h264", "-i", "/dev/video0",
   "-acodec", "aac",
   "-b:a", "0",
   "-map", "0:a",
   "-map", "1:v",
   "-f", "h264",
   "-vcodec", "copy",
   "-g", "60",
   "-f", "flv",
   streamUrl]

/-- The first `v4l2-ctl` command of `runStream` (line 120). -/
def fmtCmd (ord : RangeOrder) (config : configuration) : Cmd :=
  Command "v4l2-ctl" ["--set-fmt-video=" ++ joinProps ord (videoProps config) "=" ","]

/-- The second `v4l2-ctl` command of `runStream` (line 146). -/
def ctrlCmd (ord : RangeOrder) (config : configuration) : Cmd :=
  Command "v4l2-ctl" ["--set-ctrl=" ++ joinProps ord (controlProps config) "=" ","]

/-- The `ffmpeg` command of `runStream` (line 170). -/
def ffmpegCmd (config : configuration) : Cmd :=
  Command "ffmpeg" (ffmpegArgs (streamUrl config))

/-- Embedding of `runStream`.  The deferred `ffmpeg.Wait()` (lines 174-176) is
registered after the second device call, so it runs on both exits that follow
it and on none of the earlier ones; its result is dropped. -/
def runStream (ord : RangeOrder) (os : Runner) (config : configuration) : Outcome :=
  if config.Periscope.Key = "" then
    { err := some "Periscope stream key (-k, --key) is required.", trace := [] }
  else
    let v4l2 := fmtCmd ord config
    match Cmd.Run os [] v4l2 with
    | (some err, t1) => { err := some err, trace := t1 }
    | (none, t1) =>
      let v4l2 := ctrlCmd ord config
      match Cmd.Run os t1 v4l2 with
      | (some err, t2) => { err := some err, trace := t2 }
      | (none, t2) =>
        let ffmpeg := ffmpegCmd config
        match Cmd.Start os t2 ffmpeg with
        | (some err, t3) => { err := some err, trace := (Cmd.Wait os t3 ffmpeg false).2 }
        | (none, t3) => { err := none, trace := (Cmd.Wait os t3 ffmpeg true).2 }

/-- The invocations of external programs recorded in a trace (program name and
the arguments after it), in order: `Run` and `Start` invoke a program, `Wait`
only waits on one already started. -/
def invocations : List Event → List (String × List String)
  | [] => []
  | Event.run c :: rest => (c.Path, c.Args.tail) :: invocations rest
  | Event.start c :: rest => (c.Path, c.Args.tail) :: invocations rest
  | Event.wait _ :: rest => invocations rest

/-! ## Concrete worlds and inputs used to exercise `runStream` -/

/-- A world in which every external call succeeds. -/
def Runner.allSucceed : Runner :=
  { run := fun _ _ => none
    start := fun _ _ => none
    wait := fun _ _ => none }

/-- A world in which the first `Run` (the one made before any other call)
fails and every other call succeeds. -/
def Runner.firstRunFails : Runner :=
  { run := fun t _ => if t.length = 0 then some "exit status 1" else none
    start := fun _ _ => none
    wait := fun _ _ => none }

/-- A world in which the second call, when it is a `Run`, fails and every
other call succeeds. -/
def Runner.secondRunFails : Runner :=
  { run := fun t _ => if t.length = 1 then some "exit status 1" else none
    start := fun _ _ => none
    wait := fun _ _ => none }

/-- The baseline defaults with the key `XYZ` given on the command line and no
configuration file. -/
def sampleConfig : configuration :=
  resolvedConfig zeroConfiguration "XYZ"

/-- Iteration that starts at the second entry written and wraps around. -/
def RangeOrder.rotated : RangeOrder :=
  { iter := fun m => m.rotate 1
    perm := fun m => List.rotate_perm m 1 }

/-- A world in which every `Run` succeeds and every `Start` fails. -/
def Runner.startFails : Runner :=
  { run := fun _ _ => none
    start := fun _ _ => some "exec: ffmpeg: executable file not found"
    wait := fun _ _ => none }

/-- A world in which every `Run` and `Start` succeeds and the started process
later exits with a failure status, which is what `Wait` reports. -/
def Runner.waitFails : Runner :=
  { run := fun _ _ => none
    start := fun _ _ => none
    wait := fun _ _ => some "exit status 1" }

/-- The baseline defaults with the key `XYZ` and the vertical flip switched on
by a configuration file. -/
def flippedConfig : configuration :=
  resolvedConfig
    { Periscope := { Key := "" }
      Video := { Width := 0, Height := 0, Sharpness := 0, Quality := 0, Bitrate := 0,
                 VFlip := true, HFlip := false } }
    "XYZ"

/-! ## Field-level facts about the merge functions -/

theorem mergeString_of_ne (l r : String) (h : r ≠ "") : mergeString l r = r := by
  simp [mergeString, h]

theorem mergeString_of_eq (l r : String) (h : r = "") : mergeString l r = l := by
  simp [mergeString, h]

theorem mergeInt_of_ne (l r : Int) (h : r ≠ 0) : mergeInt l r = r := by
  simp [mergeInt, h]

theorem mergeInt_of_eq (l r : Int) (h : r = 0) : mergeInt l r = l := by
  simp [mergeInt, h]

theorem mergeBool_false_eq_or (l r : Bool) : mergeBool l r false = (l || r) := by
  cases l <;> cases r <;> rfl

theorem mergeString_empty_left (r : String) : mergeString "" r = r := by
  unfold mergeString
  split
  · next h => exact h.symm
  · rfl

theorem mergeInt_zero_left (r : Int) : mergeInt 0 r = r := by
  unfold mergeInt
  split
  · next h => exact h.symm
  · rfl

theorem mergeString_assoc (a b c : String) :
    mergeString a (mergeString b c) = mergeString (mergeString a b) c := by
  unfold mergeString
  by_cases hc : c = "" <;> simp [hc]

theorem mergeInt_assoc (a b c : Int) :
    mergeInt a (mergeInt b c) = mergeInt (mergeInt a b) c := by
  unfold mergeInt
  by_cases hc : c = 0 <;> simp [hc]

theorem mergeBool_false_assoc (a b c : Bool) :
    mergeBool a (mergeBool b c false) false = mergeBool (mergeBool a b false) c false := by
  cases a <;> cases b <;> cases c <;> rfl

theorem mergeString_self (a : String) : mergeString a a = a := by
  simp [mergeString]

theorem mergeInt_self (a : Int) : mergeInt a a = a := by
  simp [mergeInt]

theorem mergeBool_self (a d : Bool) : mergeBool a a d = a := by
  simp [mergeBool]

/-- The zero-valued configuration is a left identity of `mergeConfig`. -/
theorem mergeConfig_zero_left (c : configuration) :
    mergeConfig zeroConfiguration c = c := by
  obtain ⟨⟨k⟩, ⟨w, h, s, q, b, vf, hf⟩⟩ := c
  simp [mergeConfig, mergePeriscope, mergeVideo, zeroConfiguration,
    mergeString_empty_left, mergeInt_zero_left, mergeBool_false_eq_or]

/-- Merging a layer whose video section is all zero leaves the video section
of the lower layer unchanged. -/
theorem mergeVideo_zero_right (v : video) :
    mergeVideo v zeroConfiguration.Video = v := by
  obtain ⟨w, h, s, q, b, vf, hf⟩ := v
  simp [mergeVideo, zeroConfiguration, mergeInt, mergeBool]

/-! ## Merge laws -/

/-- C1 (R-precedence law): in the key and in each of the five integer fields,
`mergeConfig L R` holds the value of `R` when that value is not the sentinel
(empty string, zero) and the value of `L` when it is. -/
theorem C1_mergeConfig_r_precedence (L R : configuration) :
    ((R.Periscope.Key ≠ "" → (mergeConfig L R).Periscope.Key = R.Periscope.Key) ∧
     (R.Periscope.Key = "" → (mergeConfig L R).Periscope.Key = L.Periscope.Key)) ∧
    ((R.Video.Width ≠ 0 → (mergeConfig L R).Video.Width = R.Video.Width) ∧
     (R.Video.Width = 0 → (mergeConfig L R).Video.Width = L.Video.Width)) ∧
    ((R.Video.Height ≠ 0 → (mergeConfig L R).Video.Height = R.Video.Height) ∧
     (R.Video.Height = 0 → (mergeConfig L R).Video.Height = L.Video.Height)) ∧
    ((R.Video.Sharpness ≠ 0 → (mergeConfig L R).Video.Sharpness = R.Video.Sharpness) ∧
     (R.Video.Sharpness = 0 → (mergeConfig L R).Video.Sharpness = L.Video.Sharpness)) ∧
    ((R.Video.Quality ≠ 0 → (mergeConfig L R).Video.Quality = R.Video.Quality) ∧
     (R.Video.Quality = 0 → (mergeConfig L R).Video.Quality = L.Video.Quality)) ∧
    ((R.Video.Bitrate ≠ 0 → (mergeConfig L R).Video.Bitrate = R.Video.Bitrate) ∧
     (R.Video.Bitrate = 0 → (mergeConfig L R).Video.Bitrate = L.Video.Bitrate)) := by
  refine ⟨⟨?_, ?_⟩, ⟨?_, ?_⟩, ⟨?_, ?_⟩, ⟨?_, ?_⟩, ⟨?_, ?_⟩, ⟨?_, ?_⟩⟩
  · exact fun h => mergeString_of_ne _ _ h
  · exact fun h => mergeString_of_eq _ _ h
  · exact fun h => mergeInt_of_ne _ _ h
  · exact fun h => mergeInt_of_eq _ _ h
  · exact fun h => mergeInt_of_ne _ _ h
  · exact fun h => mergeInt_of_eq _ _ h
  · exact fun h => mergeInt_of_ne _ _ h
  · exact fun h => mergeInt_of_eq _ _ h
  · exact fun h => mergeInt_of_ne _ _ h
  · exact fun h => mergeInt_of_eq _ _ h
  · exact fun h => mergeInt_of_ne _ _ h
  · exact fun h => mergeInt_of_eq _ _ h

/-- C1 at a concrete pair of layers: `R` sets the key, the height and the
bitrate (the last to a negative value) and leaves the rest at the sentinel. -/
theorem C1_mergeConfig_r_precedence_witness :
    (mergeConfig
      { Periscope := { Key := "left" }
        Video := { Width := 960, Height := 540, Sharpness := 30, Quality := 80,
                   Bitrate := 800000, VFlip := false, HFlip := false } }
      { Periscope := { Key := "right" }
        Video := { Width := 0, Height := 720, Sharpness := 0, Quality := 0,
                   Bitrate := -1, VFlip := false, HFlip := false } }).Periscope.Key = "right" ∧
    (mergeConfig
      { Periscope := { Key := "left" }
        Video := { Width := 960, Height := 540, Sharpness := 30, Quality := 80,
                   Bitrate := 800000, VFlip := false, HFlip := false } }
      { Periscope := { Key := "right" }
        Video := { Width := 0, Height := 720, Sharpness := 0, Quality := 0,
                   Bitrate := -1, VFlip := false, HFlip := false } }).Video.Width = 960 ∧
    (mergeConfig
      { Periscope := { Key := "left" }
        Video := { Width := 960, Height := 540, Sharpness := 30, Quality := 80,
                   Bitrate := 800000, VFlip := false, HFlip := false } }
      { Periscope := { Key := "right" }
        Video := { Width := 0, Height := 720, Sharpness := 0, Quality := 0,
                   Bitrate := -1, VFlip := false, HFlip := false } }).Video.Bitrate = -1 :=
  have h := C1_mergeConfig_r_precedence
    { Periscope := { Key := "left" }
      Video := { Width := 960, Height := 540, Sharpness := 30, Quality := 80,
                 Bitrate := 800000, VFlip := false, HFlip := false } }
    { Periscope := { Key := "right" }
      Video := { Width := 0, Height := 720, Sharpness := 0, Quality := 0,
                 Bitrate := -1, VFlip := false, HFlip := false } }
  ⟨h.1.1 (by decide), h.2.1.2 rfl, h.2.2.2.2.2.1 (by decide)⟩

/-- C2 (CLI key precedence): for every defaults layer `D`, file layer `F` and
non-empty key `k`, resolving with a CLI layer that sets only the key `k`
yields key `k` and exactly the video settings of `mergeVideo D.Video F.Video`;
with the baseline defaults, an absent file and the key `abc123` the resolved
key is `abc123` and the resolved width is 960. -/
theorem C2_cli_key_precedence (D F : configuration) (k : String) (hk : k ≠ "") :
    (mergeConfig D (mergeConfig F (cliConfig k))).Periscope.Key = k ∧
    (mergeConfig D (mergeConfig F (cliConfig k))).Video = mergeVideo D.Video F.Video ∧
    (mergeConfig defaultConfig (mergeConfig zeroConfiguration (cliConfig "abc123"))).Periscope.Key
      = "abc123" ∧
    (mergeConfig defaultConfig (mergeConfig zeroConfiguration (cliConfig "abc123"))).Video.Width
      = 960 := by
  refine ⟨?_, ?_, by decide, by decide⟩
  · show mergeString D.Periscope.Key (mergeString F.Periscope.Key k) = k
    rw [mergeString_of_ne _ k hk, mergeString_of_ne _ k hk]
  · show mergeVideo D.Video (mergeVideo F.Video zeroConfiguration.Video) = _
    rw [mergeVideo_zero_right]

/-- C2 at the scenario of the specification: baseline defaults, absent file,
CLI key `abc123` resolve to key `abc123` and width 960. -/
theorem C2_cli_key_precedence_witness :
    "abc123" ≠ "" ∧
    (resolvedConfig zeroConfiguration "abc123").Periscope.Key = "abc123" ∧
    (resolvedConfig zeroConfiguration "abc123").Video.Width = 960 := by
  have h := C2_cli_key_precedence defaultConfig zeroConfiguration "abc123" (by decide)
  refine ⟨by decide, h.1, ?_⟩
  show (mergeConfig defaultConfig (mergeConfig zeroConfiguration (cliConfig "abc123"))).Video.Width
    = 960
  rw [h.2.1]
  decide

/-- C3 (file values override defaults): with the baseline defaults and a CLI
layer that sets nothing, every resolved integer field is the value of the file
layer when that value is non-zero and the baseline value when it is zero; a
file bitrate of 500000 resolves to 500000. -/
theorem C3_file_overrides_defaults (F : configuration) :
    (resolvedConfig F "").Video.Width
      = (if F.Video.Width = 0 then 960 else F.Video.Width) ∧
    (resolvedConfig F "").Video.Height
      = (if F.Video.Height = 0 then 540 else F.Video.Height) ∧
    (resolvedConfig F "").Video.Sharpness
      = (if F.Video.Sharpness = 0 then 30 else F.Video.Sharpness) ∧
    (resolvedConfig F "").Video.Quality
      = (if F.Video.Quality = 0 then 80 else F.Video.Quality) ∧
    (resolvedConfig F "").Video.Bitrate
      = (if F.Video.Bitrate = 0 then 800000 else F.Video.Bitrate) ∧
    (F.Video.Bitrate = 500000 → (resolvedConfig F "").Video.Bitrate = 500000) := by
  have hv : (resolvedConfig F "").Video = mergeVideo defaultConfig.Video F.Video := by
    show mergeVideo defaultConfig.Video (mergeVideo F.Video zeroConfiguration.Video) = _
    rw [mergeVideo_zero_right]
  rw [hv]
  refine ⟨rfl, rfl, rfl, rfl, rfl, ?_⟩
  intro hb
  show mergeInt 800000 F.Video.Bitrate = 500000
  rw [hb]
  rfl

/-- C3 at the scenario of the specification: a file that sets only the bitrate,
to 500000, resolves to bitrate 500000 and leaves the width at the baseline 960. -/
theorem C3_file_overrides_defaults_witness :
    (resolvedConfig
      { Periscope := { Key := "" }
        Video := { Width := 0, Height := 0, Sharpness := 0, Quality := 0,
                   Bitrate := 500000, VFlip := false, HFlip := false } } "").Video.Bitrate
      = 500000 ∧
    (resolvedConfig
      { Periscope := { Key := "" }
        Video := { Width := 0, Height := 0, Sharpness := 0, Quality := 0,
                   Bitrate := 500000, VFlip := false, HFlip := false } } "").Video.Width
      = 960 :=
  have h := C3_file_overrides_defaults
    { Periscope := { Key := "" }
      Video := { Width := 0, Height := 0, Sharpness := 0, Quality := 0,
                 Bitrate := 500000, VFlip := false, HFlip := false } }
  ⟨h.2.2.2.2.2 rfl, h.1⟩

/-- C4 (absent file layer is neutral): when the file layer is the zero-valued
configuration, resolution over defaults `D` and CLI layer `C` is the merge of
`C` directly over `D`. -/
theorem C4_absent_file_neutral (D C : configuration) :
    mergeConfig D (mergeConfig zeroConfiguration C) = mergeConfig D C := by
  rw [mergeConfig_zero_left]

/-- C5 (associativity): merging the file and CLI layers first and then applying
them over the defaults gives the same configuration as merging the defaults
with the file first and then applying the CLI layer. -/
theorem C5_mergeConfig_assoc (D F C : configuration) :
    mergeConfig D (mergeConfig F C) = mergeConfig (mergeConfig D F) C := by
  simp only [mergeConfig, mergePeriscope, mergeVideo, mergeString_assoc, mergeInt_assoc,
    mergeBool_false_assoc]

/-- C6 (idempotence): merging a configuration with itself gives it back, in
every field. -/
theorem C6_mergeConfig_idempotent (L : configuration) : mergeConfig L L = L := by
  obtain ⟨⟨k⟩, ⟨w, h, s, q, b, vf, hf⟩⟩ := L
  simp only [mergeConfig, mergePeriscope, mergeVideo, mergeString_self, mergeInt_self,
    mergeBool_self]

/-! ## The four exits of `runStream` -/

theorem runStream_key_empty (ord : RangeOrder) (os : Runner) (config : configuration)
    (hk : config.Periscope.Key = "") :
    runStream ord os config
      = { err := some "Periscope stream key (-k, --key) is required.", trace := [] } := by
  simp [runStream, hk]

theorem runStream_fmt_fails (ord : RangeOrder) (os : Runner) (config : configuration)
    (hk : config.Periscope.Key ≠ "") (e : String)
    (h1 : os.run [] (fmtCmd ord config) = some e) :
    runStream ord os config
      = { err := some e, trace := [Event.run (fmtCmd ord config)] } := by
  simp [runStream, hk, Cmd.Run, h1]

theorem runStream_ctrl_fails (ord : RangeOrder) (os : Runner) (config : configuration)
    (hk : config.Periscope.Key ≠ "") (e : String)
    (h1 : os.run [] (fmtCmd ord config) = none)
    (h2 : os.run [Event.run (fmtCmd ord config)] (ctrlCmd ord config) = some e) :
    runStream ord os config
      = { err := some e
          trace := [Event.run (fmtCmd ord config), Event.run (ctrlCmd ord config)] } := by
  simp [runStream, hk, Cmd.Run, h1, h2]

theorem runStream_devices_ok (ord : RangeOrder) (os : Runner) (config : configuration)
    (hk : config.Periscope.Key ≠ "")
    (h1 : os.run [] (fmtCmd ord config) = none)
    (h2 : os.run [Event.run (fmtCmd ord config)] (ctrlCmd ord config) = none) :
    runStream ord os config
      = { err := os.start [Event.run (fmtCmd ord config), Event.run (ctrlCmd ord config)]
                   (ffmpegCmd config)
          trace := [Event.run (fmtCmd ord config), Event.run (ctrlCmd ord config),
                    Event.start (ffmpegCmd config), Event.wait (ffmpegCmd config)] } := by
  cases h3 : os.start [Event.run (fmtCmd ord config), Event.run (ctrlCmd ord config)]
      (ffmpegCmd config) <;>
    simp [runStream, hk, Cmd.Run, Cmd.Start, Cmd.Wait, h1, h2, h3]

/-- Whenever the trace of `runStream` holds a `Start`, the key is not empty,
both device calls returned no error, and the started command is `ffmpeg`. -/
theorem runStream_start_mem (ord : RangeOrder) (os : Runner) (config : configuration)
    (c : Cmd) (hc : Event.start c ∈ (runStream ord os config).trace) :
    config.Periscope.Key ≠ "" ∧
    os.run [] (fmtCmd ord config) = none ∧
    os.run [Event.run (fmtCmd ord config)] (ctrlCmd ord config) = none ∧
    c = ffmpegCmd config := by
  by_cases hk : config.Periscope.Key = ""
  · rw [runStream_key_empty ord os config hk] at hc
    simp at hc
  · cases h1 : os.run [] (fmtCmd ord config) with
    | some e =>
      rw [runStream_fmt_fails ord os config hk e h1] at hc
      simp at hc
    | none =>
      cases h2 : os.run [Event.run (fmtCmd ord config)] (ctrlCmd ord config) with
      | some e =>
        rw [runStream_ctrl_fails ord os config hk e h1 h2] at hc
        simp at hc
      | none =>
        rw [runStream_devices_ok ord os config hk h1 h2] at hc
        simp at hc
        exact ⟨hk, rfl, rfl, hc⟩

/-! ## Failure propagation and sequencing of `runStream` -/

/-- C7 (missing credential): for every configuration whose key is empty,
whatever its video settings and whatever the outside world, `runStream` returns
the missing-key error and makes no call on any external process. -/
theorem C7_missing_credential (ord : RangeOrder) (os : Runner) (config : configuration)
    (hk : config.Periscope.Key = "") :
    (runStream ord os config).err = some "Periscope stream key (-k, --key) is required." ∧
    (runStream ord os config).trace = [] ∧
    invocations (runStream ord os config).trace = [] := by
  rw [runStream_key_empty ord os config hk]
  exact ⟨rfl, rfl, rfl⟩

/-- C7 at the baseline defaults, whose key is empty. -/
theorem C7_missing_credential_witness :
    defaultConfig.Periscope.Key = "" ∧
    (runStream RangeOrder.written Runner.allSucceed defaultConfig).err
      = some "Periscope stream key (-k, --key) is required." ∧
    (runStream RangeOrder.written Runner.allSucceed defaultConfig).trace = [] :=
  have h := C7_missing_credential RangeOrder.written Runner.allSucceed defaultConfig rfl
  ⟨rfl, h.1, h.2.1⟩

/-- C8 (device-configuration failure aborts the pipeline): for a non-empty key,
if the first `v4l2-ctl` call fails, `runStream` returns that error and the
first call is the only call made; if the first succeeds and the second fails,
`runStream` returns that error and the two device calls are the only calls
made.  In neither case is `ffmpeg` started. -/
theorem C8_device_failure_aborts (ord : RangeOrder) (os : Runner) (config : configuration)
    (hk : config.Periscope.Key ≠ "") :
    (∀ e : String, os.run [] (fmtCmd ord config) = some e →
      (runStream ord os config).err = some e ∧
      (runStream ord os config).trace = [Event.run (fmtCmd ord config)] ∧
      invocations (runStream ord os config).trace
        = [("v4l2-ctl", ["--set-fmt-video=" ++ joinProps ord (videoProps config) "=" ","])]) ∧
    (∀ e : String, os.run [] (fmtCmd ord config) = none →
      os.run [Event.run (fmtCmd ord config)] (ctrlCmd ord config) = some e →
      (runStream ord os config).err = some e ∧
      (runStream ord os config).trace
        = [Event.run (fmtCmd ord config), Event.run (ctrlCmd ord config)] ∧
      invocations (runStream ord os config).trace
        = [("v4l2-ctl", ["--set-fmt-video=" ++ joinProps ord (videoProps config) "=" ","]),
           ("v4l2-ctl", ["--set-ctrl=" ++ joinProps ord (controlProps config) "=" ","])]) := by
  constructor
  · intro e h1
    rw [runStream_fmt_fails ord os config hk e h1]
    exact ⟨rfl, rfl, rfl⟩
  · intro e h1 h2
    rw [runStream_ctrl_fails ord os config hk e h1 h2]
    exact ⟨rfl, rfl, rfl⟩

/-- C8 at the sample configuration, in a world where the first device call
fails and in a world where the second one does. -/
theorem C8_device_failure_aborts_witness :
    sampleConfig.Periscope.Key ≠ "" ∧
    ((runStream RangeOrder.written Runner.firstRunFails sampleConfig).err
        = some "exit status 1" ∧
      (runStream RangeOrder.written Runner.firstRunFails sampleConfig).trace
        = [Event.run (fmtCmd RangeOrder.written sampleConfig)]) ∧
    ((runStream RangeOrder.written Runner.secondRunFails sampleConfig).err
        = some "exit status 1" ∧
      (runStream RangeOrder.written Runner.secondRunFails sampleConfig).trace
        = [Event.run (fmtCmd RangeOrder.written sampleConfig),
           Event.run (ctrlCmd RangeOrder.written sampleConfig)]) :=
  have h1 := (C8_device_failure_aborts RangeOrder.written Runner.firstRunFails sampleConfig
    (by decide)).1 "exit status 1" rfl
  have h2 := (C8_device_failure_aborts RangeOrder.written Runner.secondRunFails sampleConfig
    (by decide)).2 "exit status 1" rfl rfl
  ⟨by decide, ⟨h1.1, h1.2.1⟩, ⟨h2.1, h2.2.1⟩⟩

/-- C9 (success-path sequencing): for a non-empty key, when both device calls
succeed the external invocations made by `runStream` are exactly `v4l2-ctl` with the
`--set-fmt-video` argument, `v4l2-ctl` with the `--set-ctrl` argument and then
`ffmpeg`, in this order; and whenever `ffmpeg` is started at all, both device
calls were made before it and returned no error. -/
theorem C9_success_sequencing (ord : RangeOrder) (os : Runner) (config : configuration)
    (hk : config.Periscope.Key ≠ "") :
    (os.run [] (fmtCmd ord config) = none →
      os.run [Event.run (fmtCmd ord config)] (ctrlCmd ord config) = none →
      (runStream ord os config).trace
        = [Event.run (fmtCmd ord config), Event.run (ctrlCmd ord config),
           Event.start (ffmpegCmd config), Event.wait (ffmpegCmd config)] ∧
      invocations (runStream ord os config).trace
        = [("v4l2-ctl", ["--set-fmt-video=" ++ joinProps ord (videoProps config) "=" ","]),
           ("v4l2-ctl", ["--set-ctrl=" ++ joinProps ord (controlProps config) "=" ","]),
           ("ffmpeg", ffmpegArgs (streamUrl config))]) ∧
    (∀ c : Cmd, Event.start c ∈ (runStream ord os config).trace →
      os.run [] (fmtCmd ord config) = none ∧
      os.run [Event.run (fmtCmd ord config)] (ctrlCmd ord config) = none ∧
      ∃ rest : List Event, (runStream ord os config).trace
        = [Event.run (fmtCmd ord config), Event.run (ctrlCmd ord config), Event.start c]
            ++ rest) := by
  constructor
  · intro h1 h2
    rw [runStream_devices_ok ord os config hk h1 h2]
    exact ⟨rfl, rfl⟩
  · intro c hc
    obtain ⟨-, h1, h2, rfl⟩ := runStream_start_mem ord os config c hc
    refine ⟨h1, h2, [Event.wait (ffmpegCmd config)], ?_⟩
    rw [runStream_devices_ok ord os config hk h1 h2]
    rfl

/-- C9 at the sample configuration in a world where every call succeeds. -/
theorem C9_success_sequencing_witness :
    sampleConfig.Periscope.Key ≠ "" ∧
    invocations (runStream RangeOrder.written Runner.allSucceed sampleConfig).trace
      = [("v4l2-ctl", ["--set-fmt-video=width=960,height=540,pixelformat=4"]),
         ("v4l2-ctl", ["--set-ctrl=sharpness=30,compression_quality=80," ++
            "video_bitrate_mode=1,video_bitrate=800000,vertical_flip=0,horizontal_flip=0"]),
         ("ffmpeg", ffmpegArgs "rtmp://va.pscp.tv:80/x/XYZ")] :=
  have h := (C9_success_sequencing RangeOrder.written Runner.allSucceed sampleConfig
    (by decide)).1 rfl rfl
  ⟨by decide, h.2.trans (by decide)⟩

/-- C10 (destination URL): for every non-empty key `k`, the URL is the fixed
text `rtmp://va.pscp.tv:80/x/` followed by the characters of `k` unchanged, its
length is 23 plus the length of `k`, and it is the last argument of every
`ffmpeg` command that `runStream` starts. -/
theorem C10_destination_url (config : configuration) (hk : config.Periscope.Key ≠ "") :
    streamUrl config = "rtmp://va.pscp.tv:80/x/" ++ config.Periscope.Key ∧
    (streamUrl config).data = "rtmp://va.pscp.tv:80/x/".data ++ config.Periscope.Key.data ∧
    (streamUrl config).length = 23 + config.Periscope.Key.length ∧
    (streamUrl config).utf8ByteSize = 23 + config.Periscope.Key.utf8ByteSize ∧
    (∀ (ord : RangeOrder) (os : Runner) (c : Cmd),
      Event.start c ∈ (runStream ord os config).trace →
      c.Path = "ffmpeg" ∧
      c.Args.getLast? = some ("rtmp://va.pscp.tv:80/x/" ++ config.Periscope.Key)) ∧
    (∀ (ord : RangeOrder) (os : Runner),
      os.run [] (fmtCmd ord config) = none →
      os.run [Event.run (fmtCmd ord config)] (ctrlCmd ord config) = none →
      Event.start (Command "ffmpeg"
          (ffmpegArgs ("rtmp://va.pscp.tv:80/x/" ++ config.Periscope.Key)))
        ∈ (runStream ord os config).trace) := by
  refine ⟨rfl, ?_, ?_, ?_, ?_, ?_⟩
  · simp [streamUrl]
  · simp [streamUrl, String.length_append]
    have : "rtmp://va.pscp.tv:80/x/".length = 23 := by decide
    omega
  · have hb : "rtmp://va.pscp.tv:80/x/".utf8ByteSize = 23 := by decide
    have ha : ∀ a b : String, (a ++ b).utf8ByteSize = a.utf8ByteSize + b.utf8ByteSize := by
      intro a b
      obtain ⟨as⟩ := a
      obtain ⟨bs⟩ := b
      show String.utf8ByteSize ⟨as ++ bs⟩ = _
      simp
    rw [streamUrl, ha, hb]
  · intro ord os c hc
    obtain ⟨-, -, -, rfl⟩ := runStream_start_mem ord os config c hc
    exact ⟨rfl, rfl⟩
  · intro ord os h1 h2
    rw [runStream_devices_ok ord os config hk h1 h2]
    simp [ffmpegCmd, streamUrl]

/-- C10 at the key `XYZ`: the URL is `rtmp://va.pscp.tv:80/x/XYZ`, 26 characters
long. -/
theorem C10_destination_url_witness :
    sampleConfig.Periscope.Key = "XYZ" ∧
    streamUrl sampleConfig = "rtmp://va.pscp.tv:80/x/XYZ" ∧
    (streamUrl sampleConfig).length = 26 :=
  have h := C10_destination_url sampleConfig (by decide)
  ⟨by decide, h.1.trans (by decide), h.2.2.1.trans (by decide)⟩

/-! ## Joining map entries -/

theorem foldl_append_singleton (f : String × String → String) (l : List (String × String))
    (acc : List String) :
    l.foldl (fun (parts : List String) (kv : String × String) => parts ++ [f kv]) acc
      = acc ++ l.map f := by
  induction l generalizing acc with
  | nil => simp
  | cons x xs ih => simp [List.foldl_cons, ih]

/-- The loop of `joinProps` collects one `key ++ kvSeparator ++ value` text for each
entry, in the order of iteration. -/
theorem joinProps_eq (ord : RangeOrder) (props : StringMap) (kvSeparator fieldSeparator : String) :
    joinProps ord props kvSeparator fieldSeparator
      = Join ((ord.iter props).map (fun kv => kv.1 ++ kvSeparator ++ kv.2)) fieldSeparator := by
  unfold joinProps
  simp only [foldl_append_singleton (fun kv => kv.1 ++ kvSeparator ++ kv.2), List.nil_append]

/-- Every joined part occurs in the joined text. -/
theorem Join_contains (parts : List String) (sep x : String) (hx : x ∈ parts) :
    ∃ before after : String, Join parts sep = before ++ x ++ after := by
  induction parts with
  | nil => simp at hx
  | cons a rest ih =>
    cases rest with
    | nil =>
      simp at hx
      subst hx
      exact ⟨"", "", by simp [Join]⟩
    | cons b rest2 =>
      rcases List.mem_cons.mp hx with h | h
      · subst h
        exact ⟨"", sep ++ Join (b :: rest2) sep, by simp [Join, String.append_assoc]⟩
      · obtain ⟨p, q, hpq⟩ := ih h
        refine ⟨a ++ sep ++ p, q, ?_⟩
        simp [Join, hpq, String.append_assoc]

/-! ## Decimal text of integers -/

theorem digitChar_isDigit (k : Nat) (hk : k < 10) : (Nat.digitChar k).isDigit = true := by
  interval_cases k <;> rfl

theorem toDigitsCore_isDigit (fuel n : Nat) (ds : List Char)
    (h : ∀ c ∈ ds, c.isDigit = true) :
    ∀ c ∈ Nat.toDigitsCore 10 fuel n ds, c.isDigit = true := by
  induction fuel generalizing n ds with
  | zero => simpa [Nat.toDigitsCore] using h
  | succ f ih =>
    have hd : (Nat.digitChar (n % 10)).isDigit = true :=
      digitChar_isDigit _ (Nat.mod_lt _ (by decide))
    have hcons : ∀ c ∈ Nat.digitChar (n % 10) :: ds, c.isDigit = true := by
      intro c hc
      rcases List.mem_cons.mp hc with h1 | h1
      · rw [h1]; exact hd
      · exact h c h1
    unfold Nat.toDigitsCore
    by_cases hz : n / 10 = 0
    · simpa [hz] using hcons
    · simp only [hz, if_false]
      exact ih _ _ hcons

/-- Every character of `Itoa i` is a decimal digit or the minus sign. -/
theorem Itoa_chars (i : Int) : ∀ c ∈ (Itoa i).data, c = '-' ∨ c.isDigit = true := by
  intro c hc
  cases i with
  | ofNat n =>
    right
    exact toDigitsCore_isDigit _ _ [] (by simp) c hc
  | negSucc n =>
    have hc2 : c ∈ '-' :: (Nat.toDigits 10 (n + 1)) := by
      simpa [Itoa, Nat.repr, List.asString] using hc
    rcases List.mem_cons.mp hc2 with h1 | h1
    · left; exact h1
    · right
      exact toDigitsCore_isDigit _ _ [] (by simp) c h1

theorem Itoa_no_comma (i : Int) : ',' ∉ (Itoa i).data := by
  intro h
  rcases Itoa_chars i _ h with h1 | h1
  · exact absurd h1 (by decide)
  · exact absurd h1 (by decide)

theorem no_comma_append (a b : String) (ha : ',' ∉ a.data) (hb : ',' ∉ b.data) :
    ',' ∉ (a ++ b).data := by
  simp [String.data_append, ha, hb]

/-! ## The two property maps -/

/-- The entries of `controlProps`, in the order written: the two conditional
assignments replace the value of an entry that is already there. -/
theorem controlProps_eq (config : configuration) :
    controlProps config
      = [("sharpness", Itoa config.Video.Sharpness),
         ("compression_quality", Itoa config.Video.Quality),
         ("video_bitrate_mode", "1"),
         ("video_bitrate", Itoa config.Video.Bitrate),
         ("vertical_flip", if config.Video.VFlip then "1" else "0"),
         ("horizontal_flip", if config.Video.HFlip then "1" else "0")] := by
  unfold controlProps
  cases config.Video.VFlip <;> cases config.Video.HFlip <;> rfl

/-- The entries of `videoProps`, in the order written. -/
theorem videoProps_eq (config : configuration) :
    videoProps config
      = [("width", Itoa config.Video.Width), ("height", Itoa config.Video.Height),
         ("pixelformat", "4")] := rfl

/-- With a non-empty key the first call of `runStream` is the `Run` of the
format command. -/
theorem runStream_trace_head (ord : RangeOrder) (os : Runner) (config : configuration)
    (hk : config.Periscope.Key ≠ "") :
    (runStream ord os config).trace.head? = some (Event.run (fmtCmd ord config)) := by
  cases h1 : os.run [] (fmtCmd ord config) with
  | some e => rw [runStream_fmt_fails ord os config hk e h1]; rfl
  | none =>
    cases h2 : os.run [Event.run (fmtCmd ord config)] (ctrlCmd ord config) with
    | some e => rw [runStream_ctrl_fails ord os config hk e h1 h2]; rfl
    | none => rw [runStream_devices_ok ord os config hk h1 h2]; rfl

/-- With a non-empty key and a successful first device call, the second call of
`runStream` is the `Run` of the control command. -/
theorem runStream_trace_second (ord : RangeOrder) (os : Runner) (config : configuration)
    (hk : config.Periscope.Key ≠ "") (h1 : os.run [] (fmtCmd ord config) = none) :
    (runStream ord os config).trace.get? 1 = some (Event.run (ctrlCmd ord config)) := by
  cases h2 : os.run [Event.run (fmtCmd ord config)] (ctrlCmd ord config) with
  | some e => rw [runStream_ctrl_fails ord os config hk e h1 h2]; rfl
  | none => rw [runStream_devices_ok ord os config hk h1 h2]; rfl

/-! ## Arguments handed to the external programs -/

/-- C11 (fixed-shape encoder arguments): for every configuration with a non-empty
key, the argument list of `ffmpeg` is the same 25 fixed arguments followed by
the destination URL as the 26th and last one; it is the argument list of every
`ffmpeg` that `runStream` starts, and it does not depend on the video section
of the configuration. -/
theorem C11_encoder_arguments (config : configuration) (hk : config.Periscope.Key ≠ "") :
    ffmpegArgs (streamUrl config)
      = ["-re", "-f", "lavfi", "-i", "anullsrc", "-f", "h264", "-i", "/dev/video0",
         "-acodec", "aac", "-b:a", "0", "-map", "0:a", "-map", "1:v", "-f", "h264",
         "-vcodec", "copy", "-g", "60", "-f", "flv"]
        ++ ["rtmp://va.pscp.tv:80/x/" ++ config.Periscope.Key] ∧
    (ffmpegArgs (streamUrl config)).length = 26 ∧
    (ffmpegArgs (streamUrl config)).take 25
      = ["-re", "-f", "lavfi", "-i", "anullsrc", "-f", "h264", "-i", "/dev/video0",
         "-acodec", "aac", "-b:a", "0", "-map", "0:a", "-map", "1:v", "-f", "h264",
         "-vcodec", "copy", "-g", "60", "-f", "flv"] ∧
    (ffmpegArgs (streamUrl config)).get? 25
      = some ("rtmp://va.pscp.tv:80/x/" ++ config.Periscope.Key) ∧
    (ffmpegArgs (streamUrl config)).getLast?
      = some ("rtmp://va.pscp.tv:80/x/" ++ config.Periscope.Key) ∧
    (∀ (ord : RangeOrder) (os : Runner) (c : Cmd),
      Event.start c ∈ (runStream ord os config).trace →
      c.Args = "ffmpeg" :: ffmpegArgs (streamUrl config)) ∧
    (∀ (ord : RangeOrder) (os : Runner),
      os.run [] (fmtCmd ord config) = none →
      os.run [Event.run (fmtCmd ord config)] (ctrlCmd ord config) = none →
      (runStream ord os config).trace.get? 2
        = some (Event.start (Command "ffmpeg" (ffmpegArgs (streamUrl config))))) ∧
    (∀ v : video,
      ffmpegArgs (streamUrl { Periscope := config.Periscope, Video := v })
        = ffmpegArgs (streamUrl config)) := by
  refine ⟨rfl, rfl, rfl, rfl, rfl, ?_, ?_, ?_⟩
  · intro ord os c hc
    obtain ⟨-, -, -, rfl⟩ := runStream_start_mem ord os config c hc
    rfl
  · intro ord os h1 h2
    rw [runStream_devices_ok ord os config hk h1 h2]
    rfl
  · intro v
    rfl

/-- C11 at the sample configuration and at a configuration with the same key
and other video settings: both give the same 26 arguments. -/
theorem C11_encoder_arguments_witness :
    sampleConfig.Periscope.Key ≠ "" ∧
    ffmpegArgs (streamUrl sampleConfig)
      = ["-re", "-f", "lavfi", "-i", "anullsrc", "-f", "h264", "-i", "/dev/video0",
         "-acodec", "aac", "-b:a", "0", "-map", "0:a", "-map", "1:v", "-f", "h264",
         "-vcodec", "copy", "-g", "60", "-f", "flv", "rtmp://va.pscp.tv:80/x/XYZ"] ∧
    ffmpegArgs (streamUrl { Periscope := sampleConfig.Periscope, Video := flippedConfig.Video })
      = ffmpegArgs (streamUrl sampleConfig) :=
  have h := C11_encoder_arguments sampleConfig (by decide)
  ⟨by decide, h.1.trans (by decide), h.2.2.2.2.2.2.2 flippedConfig.Video⟩

/-- C12 (control-configuration argument): for every configuration and every
iteration order of the map, the argument of the second `v4l2-ctl` command is
`--set-ctrl=` followed by six parts joined by commas, none of which holds a
comma itself, the parts being, in some order, `sharpness=S`, `compression_quality=Q`, `video_bitrate_mode=1`,
`video_bitrate=B`, `vertical_flip=1` or `vertical_flip=0` as `VFlip` is true or
false, and `horizontal_flip=1` or `horizontal_flip=0` as `HFlip` is true or
false (numbers in decimal); with `VFlip` true and `HFlip` false the argument
contains `vertical_flip=1` and `horizontal_flip=0`. -/
theorem C12_control_argument (ord : RangeOrder) (config : configuration) :
    (∃ parts : List String,
      (ctrlCmd ord config).Args = ["v4l2-ctl", "--set-ctrl=" ++ Join parts ","] ∧
      parts.length = 6 ∧
      List.Perm parts
        ["sharpness=" ++ Itoa config.Video.Sharpness,
         "compression_quality=" ++ Itoa config.Video.Quality,
         "video_bitrate_mode=1",
         "video_bitrate=" ++ Itoa config.Video.Bitrate,
         if config.Video.VFlip then "vertical_flip=1" else "vertical_flip=0",
         if config.Video.HFlip then "horizontal_flip=1" else "horizontal_flip=0"] ∧
      ∀ p ∈ parts, ',' ∉ p.data) ∧
    List.Perm ((ord.iter (controlProps config)).map Prod.fst)
      ["sharpness", "compression_quality", "video_bitrate_mode", "video_bitrate",
       "vertical_flip", "horizontal_flip"] ∧
    (config.Video.VFlip = true → config.Video.HFlip = false →
      (∃ before after : String,
        "--set-ctrl=" ++ joinProps ord (controlProps config) "=" ","
          = before ++ "vertical_flip=1" ++ after) ∧
      (∃ before after : String,
        "--set-ctrl=" ++ joinProps ord (controlProps config) "=" ","
          = before ++ "horizontal_flip=0" ++ after)) ∧
    (∀ os : Runner, config.Periscope.Key ≠ "" → os.run [] (fmtCmd ord config) = none →
      (runStream ord os config).trace.get? 1 = some (Event.run (ctrlCmd ord config))) := by
  have hmap : (controlProps config).map (fun kv => kv.1 ++ "=" ++ kv.2)
      = ["sharpness=" ++ Itoa config.Video.Sharpness,
         "compression_quality=" ++ Itoa config.Video.Quality,
         "video_bitrate_mode=1",
         "video_bitrate=" ++ Itoa config.Video.Bitrate,
         if config.Video.VFlip then "vertical_flip=1" else "vertical_flip=0",
         if config.Video.HFlip then "horizontal_flip=1" else "horizontal_flip=0"] := by
    rw [controlProps_eq]
    cases config.Video.VFlip <;> cases config.Video.HFlip <;> rfl
  have hperm : List.Perm ((ord.iter (controlProps config)).map (fun kv => kv.1 ++ "=" ++ kv.2))
      ((controlProps config).map (fun kv => kv.1 ++ "=" ++ kv.2)) :=
    (ord.perm (controlProps config)).map _
  have hmem : ∀ x, x ∈ (controlProps config).map (fun kv => kv.1 ++ "=" ++ kv.2) →
      ∃ before after : String,
        "--set-ctrl=" ++ joinProps ord (controlProps config) "=" "," = before ++ x ++ after := by
    intro x hx
    obtain ⟨p, q, hpq⟩ := Join_contains _ "," x (hperm.mem_iff.mpr hx)
    refine ⟨"--set-ctrl=" ++ p, q, ?_⟩
    rw [joinProps_eq, hpq]
    simp [String.append_assoc]
  refine ⟨⟨(ord.iter (controlProps config)).map (fun kv => kv.1 ++ "=" ++ kv.2), ?_, ?_, ?_, ?_⟩,
    ?_, ?_, ?_⟩
  · show [_, "--set-ctrl=" ++ joinProps ord (controlProps config) "=" ","] = _
    rw [joinProps_eq]
  · rw [hperm.length_eq, hmap]
    rfl
  · rw [← hmap]
    exact hperm
  · intro p hp
    have hp2 := hperm.mem_iff.mp hp
    rw [hmap] at hp2
    simp only [List.mem_cons, List.mem_singleton, List.not_mem_nil, or_false] at hp2
    rcases hp2 with h | h | h | h | h | h <;> subst h
    · exact no_comma_append _ _ (by decide) (Itoa_no_comma _)
    · exact no_comma_append _ _ (by decide) (Itoa_no_comma _)
    · decide
    · exact no_comma_append _ _ (by decide) (Itoa_no_comma _)
    · cases config.Video.VFlip <;> decide
    · cases config.Video.HFlip <;> decide
  · have hkeys : (controlProps config).map Prod.fst
        = ["sharpness", "compression_quality", "video_bitrate_mode", "video_bitrate",
           "vertical_flip", "horizontal_flip"] := by
      rw [controlProps_eq]
      rfl
    rw [← hkeys]
    exact (ord.perm (controlProps config)).map Prod.fst
  · intro hv hh
    constructor
    · apply hmem
      rw [hmap, hv]
      simp
    · apply hmem
      rw [hmap, hh]
      simp
  · intro os hk h1
    exact runStream_trace_second ord os config hk h1

/-- C12 at the configuration with the vertical flip on and the horizontal flip
off, iterating the map from its second entry: the six parts appear rotated, with
`vertical_flip=1` and `horizontal_flip=0` among them. -/
theorem C12_control_argument_witness :
    flippedConfig.Video.VFlip = true ∧ flippedConfig.Video.HFlip = false ∧
    (ctrlCmd RangeOrder.rotated flippedConfig).Args
      = ["v4l2-ctl", "--set-ctrl=compression_quality=80,video_bitrate_mode=1," ++
          "video_bitrate=800000,vertical_flip=1,horizontal_flip=0,sharpness=30"] ∧
    ∃ before after : String,
      "--set-ctrl=" ++ joinProps RangeOrder.rotated (controlProps flippedConfig) "=" ","
        = before ++ "vertical_flip=1" ++ after :=
  have h := C12_control_argument RangeOrder.rotated flippedConfig
  ⟨by decide, by decide, by decide, (h.2.2.1 (by decide) (by decide)).1⟩

/-- C13 (format-configuration argument): for every configuration and every
iteration order of the map, the argument of the first `v4l2-ctl` command is
`--set-fmt-video=` followed by three parts joined by commas, none of which holds
a comma itself, the parts being `width=W`, `height=H` (numbers in decimal) and
`pixelformat=4`, each once; when the map is visited in the order its entries
are written, the argument is the external-interface form, with the parts in the
order width, height, pixelformat. -/
theorem C13_format_argument (ord : RangeOrder) (config : configuration) :
    (∃ parts : List String,
      (fmtCmd ord config).Args = ["v4l2-ctl", "--set-fmt-video=" ++ Join parts ","] ∧
      parts.length = 3 ∧
      List.Perm parts
        ["width=" ++ Itoa config.Video.Width, "height=" ++ Itoa config.Video.Height,
         "pixelformat=4"] ∧
      ∀ p ∈ parts, ',' ∉ p.data) ∧
    List.Perm ((ord.iter (videoProps config)).map Prod.fst) ["width", "height", "pixelformat"] ∧
    (fmtCmd RangeOrder.written config).Args
      = ["v4l2-ctl",
         "--set-fmt-video=width=" ++ Itoa config.Video.Width
           ++ ",height=" ++ Itoa config.Video.Height ++ ",pixelformat=4"] ∧
    (∀ os : Runner, config.Periscope.Key ≠ "" →
      (runStream ord os config).trace.head? = some (Event.run (fmtCmd ord config))) := by
  have hmap : (videoProps config).map (fun kv => kv.1 ++ "=" ++ kv.2)
      = ["width=" ++ Itoa config.Video.Width, "height=" ++ Itoa config.Video.Height,
         "pixelformat=4"] := rfl
  have hperm : List.Perm ((ord.iter (videoProps config)).map (fun kv => kv.1 ++ "=" ++ kv.2))
      ((videoProps config).map (fun kv => kv.1 ++ "=" ++ kv.2)) :=
    (ord.perm (videoProps config)).map _
  refine ⟨⟨(ord.iter (videoProps config)).map (fun kv => kv.1 ++ "=" ++ kv.2), ?_, ?_, ?_, ?_⟩,
    ?_, ?_, ?_⟩
  · show [_, "--set-fmt-video=" ++ joinProps ord (videoProps config) "=" ","] = _
    rw [joinProps_eq]
  · rw [hperm.length_eq, hmap]
    rfl
  · rw [← hmap]
    exact hperm
  · intro p hp
    have hp2 := hperm.mem_iff.mp hp
    rw [hmap] at hp2
    simp only [List.mem_cons, List.mem_singleton, List.not_mem_nil, or_false] at hp2
    rcases hp2 with h | h | h <;> subst h
    · exact no_comma_append _ _ (by decide) (Itoa_no_comma _)
    · exact no_comma_append _ _ (by decide) (Itoa_no_comma _)
    · decide
  · exact (ord.perm (videoProps config)).map Prod.fst
  · show [_, "--set-fmt-video=" ++ joinProps RangeOrder.written (videoProps config) "=" ","] = _
    rw [joinProps_eq]
    show [_, "--set-fmt-video=" ++ Join ((videoProps config).map _) ","] = _
    rw [hmap]
    generalize Itoa config.Video.Width = w
    generalize Itoa config.Video.Height = h
    congr 1
    congr 1
    apply String.ext
    simp [Join, String.data_append]
  · intro os hk
    exact runStream_trace_head ord os config hk

/-- C13 at the sample configuration: visiting the map in the order written
gives the external-interface form, visiting it from its second entry gives the
same three parts in another order. -/
theorem C13_format_argument_witness :
    (fmtCmd RangeOrder.written sampleConfig).Args
      = ["v4l2-ctl", "--set-fmt-video=width=960,height=540,pixelformat=4"] ∧
    (fmtCmd RangeOrder.rotated sampleConfig).Args
      = ["v4l2-ctl", "--set-fmt-video=height=540,pixelformat=4,width=960"] ∧
    List.Perm ((RangeOrder.rotated.iter (videoProps sampleConfig)).map Prod.fst)
      ["width", "height", "pixelformat"] :=
  have h := C13_format_argument RangeOrder.rotated sampleConfig
  ⟨h.2.2.1.trans (by decide), by decide, h.2.1⟩

/-! ## Waiting on the encoder -/

/-- C14, as the claim states it, fails: at the sample configuration, in a world
where every call succeeds, `ffmpeg` starts, `runStream` returns no error, and
yet its trace holds a `Wait` on `ffmpeg`, made by the deferred call before
`runStream` returns. -/
theorem C14_nonblocking_launch_counterexample :
    ¬ (Runner.allSucceed.start
          [Event.run (fmtCmd RangeOrder.written sampleConfig),
           Event.run (ctrlCmd RangeOrder.written sampleConfig)]
          (ffmpegCmd sampleConfig) = none →
        (runStream RangeOrder.written Runner.allSucceed sampleConfig).err = none ∧
        ∀ c : Cmd,
          Event.wait c ∉ (runStream RangeOrder.written Runner.allSucceed sampleConfig).trace) := by
  intro h
  exact (h rfl).2 (ffmpegCmd sampleConfig) (by decide)

/-- C14, amended (launch, then wait): for a non-empty key, when both device
calls succeed and `ffmpeg` starts, `runStream` returns no error after exactly
four calls, the last two being the `Start` of `ffmpeg` and then the deferred
`Wait` on it; the wait is made inside `runStream`, after the start and before
the return. -/
theorem C14_launch_then_wait (ord : RangeOrder) (os : Runner) (config : configuration)
    (hk : config.Periscope.Key ≠ "")
    (h1 : os.run [] (fmtCmd ord config) = none)
    (h2 : os.run [Event.run (fmtCmd ord config)] (ctrlCmd ord config) = none)
    (h3 : os.start [Event.run (fmtCmd ord config), Event.run (ctrlCmd ord config)]
            (ffmpegCmd config) = none) :
    (runStream ord os config).err = none ∧
    (runStream ord os config).trace
      = [Event.run (fmtCmd ord config), Event.run (ctrlCmd ord config),
         Event.start (ffmpegCmd config), Event.wait (ffmpegCmd config)] ∧
    (runStream ord os config).trace.getLast? = some (Event.wait (ffmpegCmd config)) ∧
    (runStream ord os config).trace.get? 2 = some (Event.start (ffmpegCmd config)) := by
  rw [runStream_devices_ok ord os config hk h1 h2, h3]
  exact ⟨rfl, rfl, rfl, rfl⟩

/-- C14, amended, at the sample configuration in a world where every call
succeeds. -/
theorem C14_launch_then_wait_witness :
    sampleConfig.Periscope.Key ≠ "" ∧
    (runStream RangeOrder.written Runner.allSucceed sampleConfig).err = none ∧
    (runStream RangeOrder.written Runner.allSucceed sampleConfig).trace.getLast?
      = some (Event.wait (ffmpegCmd sampleConfig)) :=
  have h := C14_launch_then_wait RangeOrder.written Runner.allSucceed sampleConfig
    (by decide) rfl rfl rfl
  ⟨by decide, h.1, h.2.2.1⟩

/-- C15 (encoder outcome reporting): for a non-empty key and two successful
device calls, `runStream` returns exactly what `Start` of `ffmpeg` returns, so
it returns an error if and only if the start fails; and the outcome of
`runStream` is the same whatever `Wait` reports, so once `ffmpeg` has started
`runStream` returns no error whatever the later exit status is. -/
theorem C15_encoder_outcome (ord : RangeOrder) (os : Runner) (config : configuration)
    (hk : config.Periscope.Key ≠ "")
    (h1 : os.run [] (fmtCmd ord config) = none)
    (h2 : os.run [Event.run (fmtCmd ord config)] (ctrlCmd ord config) = none) :
    (runStream ord os config).err
      = os.start [Event.run (fmtCmd ord config), Event.run (ctrlCmd ord config)]
          (ffmpegCmd config) ∧
    ((runStream ord os config).err ≠ none ↔
      os.start [Event.run (fmtCmd ord config), Event.run (ctrlCmd ord config)]
        (ffmpegCmd config) ≠ none) ∧
    (∀ w : List Event → Cmd → Option String,
      runStream ord { run := os.run, start := os.start, wait := w } config
        = runStream ord os config) ∧
    (os.start [Event.run (fmtCmd ord config), Event.run (ctrlCmd ord config)]
        (ffmpegCmd config) = none →
      ∀ w : List Event → Cmd → Option String,
        (runStream ord { run := os.run, start := os.start, wait := w } config).err = none) := by
  have hw : ∀ w : List Event → Cmd → Option String,
      runStream ord { run := os.run, start := os.start, wait := w } config
        = runStream ord os config := by
    intro w
    rw [runStream_devices_ok ord os config hk h1 h2,
      runStream_devices_ok ord { run := os.run, start := os.start, wait := w } config hk h1 h2]
  have he := runStream_devices_ok ord os config hk h1 h2
  refine ⟨?_, ?_, hw, ?_⟩
  · rw [he]
  · rw [he]
  · intro h3 w
    rw [hw w, he]
    exact h3

/-- C15 at the sample configuration: no error in a world where `ffmpeg` starts
and later exits with a failure status, the error of `Start` in a world where
`ffmpeg` cannot be started. -/
theorem C15_encoder_outcome_witness :
    sampleConfig.Periscope.Key ≠ "" ∧
    (runStream RangeOrder.written Runner.waitFails sampleConfig).err = none ∧
    (runStream RangeOrder.written Runner.startFails sampleConfig).err
      = some "exec: ffmpeg: executable file not found" :=
  have hw := C15_encoder_outcome RangeOrder.written Runner.waitFails sampleConfig
    (by decide) rfl rfl
  have hs := C15_encoder_outcome RangeOrder.written Runner.startFails sampleConfig
    (by decide) rfl rfl
  ⟨by decide, hw.1.trans rfl, hs.1.trans rfl⟩

/-! ## Sentinels cannot be restored -/

theorem mergeInt_eq_zero_iff (l r : Int) : mergeInt l r = 0 ↔ l = 0 ∧ r = 0 := by
  unfold mergeInt
  by_cases hr : r = 0 <;> simp [hr]

theorem mergeString_eq_empty_iff (l r : String) :
    mergeString l r = "" ↔ l = "" ∧ r = "" := by
  unfold mergeString
  by_cases hr : r = "" <;> simp [hr]

theorem mergeInt_ne_zero_of_left (l r : Int) (hl : l ≠ 0) : mergeInt l r ≠ 0 := by
  intro h
  exact hl ((mergeInt_eq_zero_iff l r).mp h).1

/-- Over a non-zero baseline `b`, the merge of three layers is non-zero, and is
the baseline or a non-zero value of one of the two upper layers. -/
theorem mergeInt_over_baseline (b f c : Int) (hb : b ≠ 0) :
    mergeInt b (mergeInt f c) ≠ 0 ∧
    (mergeInt b (mergeInt f c) = b ∨
     (mergeInt b (mergeInt f c) = f ∧ f ≠ 0) ∨
     (mergeInt b (mergeInt f c) = c ∧ c ≠ 0)) := by
  refine ⟨mergeInt_ne_zero_of_left _ _ hb, ?_⟩
  unfold mergeInt
  by_cases hc : c = 0
  · by_cases hf : f = 0
    · simp [hc, hf]
    · simp [hc, hf]
  · simp [hc]

/-- C16 (limitation of the sentinel merge): in every field, a value of `L` that
is not the sentinel gives a value of `mergeConfig L R` that is not the sentinel
either; a merged integer is zero exactly when it is zero in both layers, the
merged key is empty exactly when it is empty in both, and a merged flip is the
logical OR of the flips of the two layers. -/
theorem C16_sentinel_not_restored (L R : configuration) :
    ((L.Periscope.Key ≠ "" → (mergeConfig L R).Periscope.Key ≠ "") ∧
     (L.Video.Width ≠ 0 → (mergeConfig L R).Video.Width ≠ 0) ∧
     (L.Video.Height ≠ 0 → (mergeConfig L R).Video.Height ≠ 0) ∧
     (L.Video.Sharpness ≠ 0 → (mergeConfig L R).Video.Sharpness ≠ 0) ∧
     (L.Video.Quality ≠ 0 → (mergeConfig L R).Video.Quality ≠ 0) ∧
     (L.Video.Bitrate ≠ 0 → (mergeConfig L R).Video.Bitrate ≠ 0) ∧
     (L.Video.VFlip = true → (mergeConfig L R).Video.VFlip = true) ∧
     (L.Video.HFlip = true → (mergeConfig L R).Video.HFlip = true)) ∧
    (((mergeConfig L R).Periscope.Key = "" ↔ L.Periscope.Key = "" ∧ R.Periscope.Key = "") ∧
     ((mergeConfig L R).Video.Width = 0 ↔ L.Video.Width = 0 ∧ R.Video.Width = 0) ∧
     ((mergeConfig L R).Video.Height = 0 ↔ L.Video.Height = 0 ∧ R.Video.Height = 0) ∧
     ((mergeConfig L R).Video.Sharpness = 0
        ↔ L.Video.Sharpness = 0 ∧ R.Video.Sharpness = 0) ∧
     ((mergeConfig L R).Video.Quality = 0 ↔ L.Video.Quality = 0 ∧ R.Video.Quality = 0) ∧
     ((mergeConfig L R).Video.Bitrate = 0 ↔ L.Video.Bitrate = 0 ∧ R.Video.Bitrate = 0)) ∧
    ((mergeConfig L R).Video.VFlip = (L.Video.VFlip || R.Video.VFlip) ∧
     (mergeConfig L R).Video.HFlip = (L.Video.HFlip || R.Video.HFlip)) := by
  refine ⟨⟨?_, ?_, ?_, ?_, ?_, ?_, ?_, ?_⟩, ⟨?_, ?_, ?_, ?_, ?_, ?_⟩, ⟨?_, ?_⟩⟩
  · intro hl h
    exact hl ((mergeString_eq_empty_iff _ _).mp h).1
  · exact mergeInt_ne_zero_of_left _ _
  · exact mergeInt_ne_zero_of_left _ _
  · exact mergeInt_ne_zero_of_left _ _
  · exact mergeInt_ne_zero_of_left _ _
  · exact mergeInt_ne_zero_of_left _ _
  · intro hl
    show mergeBool L.Video.VFlip R.Video.VFlip false = true
    rw [mergeBool_false_eq_or, hl]
    rfl
  · intro hl
    show mergeBool L.Video.HFlip R.Video.HFlip false = true
    rw [mergeBool_false_eq_or, hl]
    rfl
  · exact mergeString_eq_empty_iff _ _
  · exact mergeInt_eq_zero_iff _ _
  · exact mergeInt_eq_zero_iff _ _
  · exact mergeInt_eq_zero_iff _ _
  · exact mergeInt_eq_zero_iff _ _
  · exact mergeInt_eq_zero_iff _ _
  · exact mergeBool_false_eq_or _ _
  · exact mergeBool_false_eq_or _ _

/-- C16 at the baseline defaults with a vertical flip, under an upper layer that
is entirely zero: the width stays non-zero and the flip stays on. -/
theorem C16_sentinel_not_restored_witness :
    (mergeConfig flippedConfig zeroConfiguration).Video.Width ≠ 0 ∧
    (mergeConfig flippedConfig zeroConfiguration).Video.VFlip = true ∧
    (mergeConfig flippedConfig zeroConfiguration).Periscope.Key ≠ "" :=
  have h := C16_sentinel_not_restored flippedConfig zeroConfiguration
  ⟨h.1.2.1 (by decide), h.1.2.2.2.2.2.2.1 (by decide), h.1.1 (by decide)⟩

/-- C17 (resolved integers are never zero): with the baseline defaults of
`main`, for every file layer `F` and every CLI layer `C`, each of the five
integer fields of the resolved configuration is non-zero, and is the baseline
value or a non-zero value of `F` or of `C`; such a value may be negative, as
for a file bitrate of -1. -/
theorem C17_resolved_integers_nonzero (F C : configuration) :
    ((mergeConfig defaultConfig (mergeConfig F C)).Video.Width ≠ 0 ∧
      ((mergeConfig defaultConfig (mergeConfig F C)).Video.Width = 960 ∨
       ((mergeConfig defaultConfig (mergeConfig F C)).Video.Width = F.Video.Width ∧
          F.Video.Width ≠ 0) ∨
       ((mergeConfig defaultConfig (mergeConfig F C)).Video.Width = C.Video.Width ∧
          C.Video.Width ≠ 0))) ∧
    ((mergeConfig defaultConfig (mergeConfig F C)).Video.Height ≠ 0 ∧
      ((mergeConfig defaultConfig (mergeConfig F C)).Video.Height = 540 ∨
       ((mergeConfig defaultConfig (mergeConfig F C)).Video.Height = F.Video.Height ∧
          F.Video.Height ≠ 0) ∨
       ((mergeConfig defaultConfig (mergeConfig F C)).Video.Height = C.Video.Height ∧
          C.Video.Height ≠ 0))) ∧
    ((mergeConfig defaultConfig (mergeConfig F C)).Video.Sharpness ≠ 0 ∧
      ((mergeConfig defaultConfig (mergeConfig F C)).Video.Sharpness = 30 ∨
       ((mergeConfig defaultConfig (mergeConfig F C)).Video.Sharpness = F.Video.Sharpness ∧
          F.Video.Sharpness ≠ 0) ∨
       ((mergeConfig defaultConfig (mergeConfig F C)).Video.Sharpness = C.Video.Sharpness ∧
          C.Video.Sharpness ≠ 0))) ∧
    ((mergeConfig defaultConfig (mergeConfig F C)).Video.Quality ≠ 0 ∧
      ((mergeConfig defaultConfig (mergeConfig F C)).Video.Quality = 80 ∨
       ((mergeConfig defaultConfig (mergeConfig F C)).Video.Quality = F.Video.Quality ∧
          F.Video.Quality ≠ 0) ∨
       ((mergeConfig defaultConfig (mergeConfig F C)).Video.Quality = C.Video.Quality ∧
          C.Video.Quality ≠ 0))) ∧
    ((mergeConfig defaultConfig (mergeConfig F C)).Video.Bitrate ≠ 0 ∧
      ((mergeConfig defaultConfig (mergeConfig F C)).Video.Bitrate = 800000 ∨
       ((mergeConfig defaultConfig (mergeConfig F C)).Video.Bitrate = F.Video.Bitrate ∧
          F.Video.Bitrate ≠ 0) ∨
       ((mergeConfig defaultConfig (mergeConfig F C)).Video.Bitrate = C.Video.Bitrate ∧
          C.Video.Bitrate ≠ 0))) ∧
    (F.Video.Bitrate = -1 → C.Video.Bitrate = 0 →
      (mergeConfig defaultConfig (mergeConfig F C)).Video.Bitrate = -1) := by
  refine ⟨?_, ?_, ?_, ?_, ?_, ?_⟩
  · exact mergeInt_over_baseline 960 F.Video.Width C.Video.Width (by decide)
  · exact mergeInt_over_baseline 540 F.Video.Height C.Video.Height (by decide)
  · exact mergeInt_over_baseline 30 F.Video.Sharpness C.Video.Sharpness (by decide)
  · exact mergeInt_over_baseline 80 F.Video.Quality C.Video.Quality (by decide)
  · exact mergeInt_over_baseline 800000 F.Video.Bitrate C.Video.Bitrate (by decide)
  · intro hf hc
    show mergeInt 800000 (mergeInt F.Video.Bitrate C.Video.Bitrate) = -1
    rw [hf, hc]
    rfl

/-- C17 at a file layer that sets the bitrate to -1 and leaves the rest unset,
with the CLI layer of `main`: the resolved bitrate is -1 and the resolved width
is the baseline 960, neither being zero. -/
theorem C17_resolved_integers_nonzero_witness :
    (mergeConfig defaultConfig (mergeConfig
        { Periscope := { Key := "" }
          Video := { Width := 0, Height := 0, Sharpness := 0, Quality := 0,
                     Bitrate := -1, VFlip := false, HFlip := false } }
        (cliConfig "XYZ"))).Video.Bitrate = -1 ∧
    (mergeConfig defaultConfig (mergeConfig
        { Periscope := { Key := "" }
          Video := { Width := 0, Height := 0, Sharpness := 0, Quality := 0,
                     Bitrate := -1, VFlip := false, HFlip := false } }
        (cliConfig "XYZ"))).Video.Width ≠ 0 :=
  have h := C17_resolved_integers_nonzero
    { Periscope := { Key := "" }
      Video := { Width := 0, Height := 0, Sharpness := 0, Quality := 0,
                 Bitrate := -1, VFlip := false, HFlip := false } }
    (cliConfig "XYZ")
  ⟨h.2.2.2.2.2 rfl rfl, h.1.1⟩

end Piriscope
